import Mathlib

/-!
# Verification of the nyl SSH tunnel manager and its file-backed key-value store

Shallow embedding of `src/nyl/profiles/tunnel.py`, `src/nyl/tools/kvstore.py`
and `src/nyl/tunnel.py`.

Modelling conventions:
* Python dictionaries are association lists `List (String × β)`; insertion of an
  existing key replaces in place, insertion of a fresh key appends.
* OS interaction (`os.kill`, `os.waitpid`, `subprocess.Popen`) is modelled by an
  explicit environment: `OsEnv.live pid` says whether a signal can be delivered
  to `pid` (`os.kill` raises `ProcessLookupError` otherwise) and `OsEnv.child pid`
  whether `os.waitpid pid` succeeds (it raises `ChildProcessError` otherwise).
* Randomness (`random.randint`) is an explicit oracle `RandEnv`: the draw for the
  tunnel id, the port drawn per forwarding alias, and the pid the spawned ssh
  process receives.
* Python exceptions are `Except PyError`; a `try/except X: ...` block is a match
  that intercepts exactly the error `X`.
* Side effects relevant to the specification (signals sent, processes spawned,
  store keys written) are returned in an explicit `Effects` record.
* The spec hash (`stablehash(spec).hexdigest()`, an external library) is an
  abstract parameter `hash : TunnelSpec → String`; the manager only ever
  compares its results for equality.
-/

/-- Python exceptions that the modelled code raises or catches. -/
inductive PyError
  | processLookup
  | childProcess
  | keyError
  | runtimeError
deriving DecidableEq

/-- Source `TunnelSpec.Forwarding`: target host and port of one forwarding. -/
structure Forwarding where
  host : String
  port : Int
deriving DecidableEq

/-- Source `TunnelSpec.Locator`: identifies where a tunnel spec is defined. -/
structure Locator where
  config_file : String
  profile : String
deriving DecidableEq

/-- Source `Locator.__str__`: `f"{self.config_file}:{self.profile}"`. -/
def Locator.str (l : Locator) : String :=
  l.config_file ++ ":" ++ l.profile

/-- Source `TunnelSpec`: the description of an SSH tunnel to be opened. -/
structure TunnelSpec where
  locator : Locator
  forwardings : List (String × Forwarding)
  user : String
  host : String
  identity_file : Option String
deriving DecidableEq

/-- The three values of the `status` field: `"open"`, `"broken"`, `"closed"`. -/
inductive TunnelState
  | opened
  | broken
  | closed
deriving DecidableEq

/-- Source `TunnelStatus`: current status of a tunnel. -/
structure TunnelStatus where
  id : String
  status : TunnelState
  ssh_pid : Option Nat
  local_ports : List (String × Nat)
  spec_hash : String
deriving DecidableEq

/-- Source `TunnelStatus.empty()`: `TunnelStatus("", "closed", None, {}, "")`. -/
def TunnelStatus.empty : TunnelStatus :=
  { id := "", status := .closed, ssh_pid := none, local_ports := [], spec_hash := "" }

/-- Dictionary lookup on an association list (`d[k]` / `d.get(k)`). -/
def lookupKey {β : Type} : List (String × β) → String → Option β
  | [], _ => none
  | (k0, v0) :: rest, k => if k0 = k then some v0 else lookupKey rest k

/-- Dictionary update `d[k] = v`: replace in place, or append a fresh key. -/
def setKey {β : Type} : List (String × β) → String → β → List (String × β)
  | [], k, v => [(k, v)]
  | (k0, v0) :: rest, k, v =>
    if k0 = k then (k, v) :: rest else (k0, v0) :: setKey rest k v

/-- Dictionary deletion `del d[k]` (the key is assumed present by the caller). -/
def delKey {β : Type} : List (String × β) → String → List (String × β)
  | [], _ => []
  | (k0, v0) :: rest, k => if k0 = k then rest else (k0, v0) :: delKey rest k

/-- The OS as seen through `os.kill` and `os.waitpid`. -/
structure OsEnv where
  live : Nat → Bool
  child : Nat → Bool

/-- Model of `os.kill(pid, 0)`: liveness probe; raises `ProcessLookupError` if dead. -/
def os_kill_probe (os : OsEnv) (pid : Nat) : Except PyError Unit :=
  if os.live pid then .ok () else .error .processLookup

/-- Model of `os.kill(pid, signal.SIGTERM)`: returns the pids actually signalled;
raises `ProcessLookupError` if the process does not exist. -/
def os_kill_term (os : OsEnv) (pid : Nat) : Except PyError (List Nat) :=
  if os.live pid then .ok [pid] else .error .processLookup

/-- Model of `os.waitpid(pid, 0)`: raises `ChildProcessError` if `pid` is not a child. -/
def os_waitpid (os : OsEnv) (pid : Nat) : Except PyError Unit :=
  if os.child pid then .ok () else .error .childProcess

/-- Model of `try: ... except ProcessLookupError: pass` around an OS call. -/
def catch_ple {α : Type} (dflt : α) (r : Except PyError α) : Except PyError α :=
  match r with
  | .error .processLookup => .ok dflt
  | r => r

/-- Model of `try: ... except ChildProcessError: pass` around an OS call. -/
def catch_cpe {α : Type} (dflt : α) (r : Except PyError α) : Except PyError α :=
  match r with
  | .error .childProcess => .ok dflt
  | r => r

/-- Source `TunnelManager._refresh_status`: probe the recorded pid; on
`ProcessLookupError` mark the record `broken` and clear the pid, otherwise mark
it `open`. Records without a pid are untouched. -/
def refresh_status (os : OsEnv) (st : TunnelStatus) : Except PyError TunnelStatus :=
  match st.ssh_pid with
  | none => .ok st
  | some pid =>
    match os_kill_probe os pid with
    | .ok _ => .ok { st with status := .opened }
    | .error .processLookup => .ok { st with status := .broken, ssh_pid := none }
    | .error e => .error e

/-- Source `TunnelManager._close_tunnel`: SIGTERM the recorded process (ignoring
`ProcessLookupError`), reap it (ignoring `ChildProcessError`), then set the
status to `closed` and clear pid and local ports. Also returns the list of
pids that were actually signalled. -/
def close_status (os : OsEnv) (st : TunnelStatus) :
    Except PyError (TunnelStatus × List Nat) := do
  let term ←
    match st.ssh_pid with
    | none => pure []
    | some pid => do
      let t ← catch_ple [] (os_kill_term os pid)
      let _ ← catch_cpe () (os_waitpid os pid)
      pure t
  pure ({ st with status := .closed, ssh_pid := none, local_ports := [] }, term)

/-- The persisted state: locator string ↦ (spec, status), as stored by the
`SerializingStore` (deserialization yields a fresh value on every `get`, so the
store is value-, not reference-, semantic). -/
abbrev Store := List (String × TunnelSpec × TunnelStatus)

/-- The random draws one `open_tunnel` call consumes. -/
structure RandEnv where
  id_draw : Nat
  port_draw : String → Nat
  spawn_pid : Nat

/-- Source `new_tunnel_id()`: `f"tun{random.randint(1000, 9999)}"`. -/
def new_tunnel_id (draw : Nat) : String :=
  "tun" ++ toString draw

/-- One `subprocess.Popen` call: the pid obtained and whether the child was
detached into its own process group (`preexec_fn=os.setsid`). -/
structure SpawnEvent where
  pid : Nat
  detached : Bool
deriving DecidableEq

/-- Externally visible side effects of one manager operation. -/
structure Effects where
  terminated : List Nat
  spawned : List SpawnEvent
  writes : List String
deriving DecidableEq

/-- No side effects. -/
def Effects.empty : Effects := ⟨[], [], []⟩

/-- Source `TunnelManager.get_tunnel`: look up the record (returning `none` on
`KeyError`), refresh it, persist the refreshed record, return it. -/
def get_tunnel (os : OsEnv) (store : Store) (loc : Locator) :
    Except PyError (Option (TunnelSpec × TunnelStatus) × Store × Effects) := do
  match lookupKey store loc.str with
  | none => pure (none, store, Effects.empty)
  | some (spec, st) => do
    let st1 ← refresh_status os st
    pure (some (spec, st1), setKey store loc.str (spec, st1), ⟨[], [], [loc.str]⟩)

/-- The loop body of `TunnelManager.get_tunnels` over the listed keys. -/
def get_tunnels_go (os : OsEnv) :
    List String → Store → Except PyError (List (TunnelSpec × TunnelStatus) × Store)
  | [], store => pure ([], store)
  | k :: rest, store => do
    match lookupKey store k with
    | none => throw .keyError
    | some (spec, st) => do
      let st1 ← refresh_status os st
      let store1 := setKey store k (spec, st1)
      let (pairs, store2) ← get_tunnels_go os rest store1
      pure ((spec, st1) :: pairs, store2)

/-- Source `TunnelManager.get_tunnels`: refresh and persist every record, returning
all (spec, status) pairs. -/
def get_tunnels (os : OsEnv) (store : Store) :
    Except PyError (List (TunnelSpec × TunnelStatus) × Store) :=
  get_tunnels_go os (store.map Prod.fst) store

/-- The tail of `TunnelManager.open_tunnel` after the idempotency check: build
a fresh status, write it provisionally, draw one local port per forwarding
alias, spawn the ssh process (a plain `subprocess.Popen`, not detached), and
persist the final record. -/
def open_tunnel_spawn (rnd : RandEnv) (store : Store) (spec : TunnelSpec)
    (spec_hash : String) (term : List Nat) : TunnelStatus × Store × Effects :=
  let key := spec.locator.str
  let st1 : TunnelStatus :=
    { id := new_tunnel_id rnd.id_draw, status := .closed, ssh_pid := none,
      local_ports := [], spec_hash := spec_hash }
  let store1 := setKey store key (spec, st1)
  let ports := spec.forwardings.map (fun af => (af.1, rnd.port_draw af.1))
  let st2 : TunnelStatus :=
    { st1 with status := .opened, ssh_pid := some rnd.spawn_pid, local_ports := ports }
  (st2, setKey store1 key (spec, st2), ⟨term, [⟨rnd.spawn_pid, false⟩], [key, key]⟩)

/-- Source `TunnelManager.open_tunnel`: if a record exists for the locator, is `open`
and carries the current spec hash, return it unchanged; otherwise close the
old tunnel (if a record exists) and open a fresh one. -/
def open_tunnel (hash : TunnelSpec → String) (os : OsEnv) (rnd : RandEnv)
    (store : Store) (spec : TunnelSpec) :
    Except PyError (TunnelStatus × Store × Effects) := do
  let spec_hash := hash spec
  match (lookupKey store spec.locator.str).map (fun p => p.2) with
  | some st =>
    if st.status = TunnelState.opened ∧ st.spec_hash = spec_hash then
      pure (st, store, Effects.empty)
    else do
      let (_, term) ← close_status os st
      pure (open_tunnel_spawn rnd store spec spec_hash term)
  | none => pure (open_tunnel_spawn rnd store spec spec_hash [])

/-- Source `TunnelManager.close_tunnel`: on `KeyError` return a synthetic empty
`closed` status; otherwise refresh, close, persist and return the record. -/
def close_tunnel (os : OsEnv) (store : Store) (loc : Locator) :
    Except PyError (TunnelStatus × Store × Effects) := do
  match lookupKey store loc.str with
  | none => pure (TunnelStatus.empty, store, Effects.empty)
  | some (spec, st) => do
    let st1 ← refresh_status os st
    let (st2, term) ← close_status os st1
    pure (st2, setKey store loc.str (spec, st2), ⟨term, [], [loc.str]⟩)

/-- Source `JsonFileKvStore` (from `src/nyl/tools/kvstore.py`), generic in the stored
value type (the JSON document; `json.dump`/`json.load` round-trip is assumed).
`disk` is the state file's contents (`none` = file absent), `data` the
in-memory cache `_data`, `loaded` the `_loaded` flag, `locked` whether this
process currently holds the file lock, `lockfile` whether a lockfile is
configured at all. -/
structure JsonFileKvStore (α : Type) where
  disk : Option (List (String × α))
  data : List (String × α)
  loaded : Bool
  locked : Bool
  lockfile : Bool
deriving DecidableEq

/-- Source `JsonFileKvStore.__enter__`: acquire the file lock (if configured).
Contention and the 5s acquisition timeout are outside this single-session
model. -/
def JsonFileKvStore.enter {α : Type} (s : JsonFileKvStore α) : JsonFileKvStore α :=
  if s.lockfile then { s with locked := true } else s

/-- Source `JsonFileKvStore._load`: no-op when already loaded; raises `RuntimeError`
when a lockfile is configured but not held; otherwise reads the file into the
cache (leaving the cache as-is when the file does not exist). -/
def JsonFileKvStore.load {α : Type} (s : JsonFileKvStore α) :
    Except PyError (JsonFileKvStore α) :=
  if s.loaded then .ok s
  else if s.lockfile && !s.locked then .error .runtimeError
  else
    match s.disk with
    | some d => .ok { s with data := d, loaded := true }
    | none => .ok { s with loaded := true }

/-- Source `JsonFileKvStore._save`: raises `RuntimeError` when a lockfile is
configured but not held; otherwise writes the cache to the file. -/
def JsonFileKvStore.save {α : Type} (s : JsonFileKvStore α) :
    Except PyError (JsonFileKvStore α) :=
  if s.lockfile && !s.locked then .error .runtimeError
  else .ok { s with disk := some s.data }

/-- Source `JsonFileKvStore.__exit__`: save, then release the lock and discard the
cached data (when a lockfile is configured). -/
def JsonFileKvStore.exitCtx {α : Type} (s : JsonFileKvStore α) :
    Except PyError (JsonFileKvStore α) := do
  let s1 ← s.save
  if s1.lockfile then .ok { s1 with locked := false, data := [], loaded := false }
  else .ok s1

/-- Source `JsonFileKvStore.get`: load, then index the cache (`KeyError` if absent).
Returns the value together with the store (whose cache may have just been
loaded). -/
def JsonFileKvStore.get {α : Type} (s : JsonFileKvStore α) (k : String) :
    Except PyError (α × JsonFileKvStore α) := do
  let s1 ← s.load
  match lookupKey s1.data k with
  | some v => pure (v, s1)
  | none => throw .keyError

/-- Source `JsonFileKvStore.set`: load, then update the cache in memory. -/
def JsonFileKvStore.set {α : Type} (s : JsonFileKvStore α) (k : String) (v : α) :
    Except PyError (JsonFileKvStore α) := do
  let s1 ← s.load
  pure { s1 with data := setKey s1.data k v }

/-- Source `JsonFileKvStore.delete`: load, then `del` the key (`KeyError` if absent). -/
def JsonFileKvStore.delete {α : Type} (s : JsonFileKvStore α) (k : String) :
    Except PyError (JsonFileKvStore α) := do
  let s1 ← s.load
  match lookupKey s1.data k with
  | some _ => pure { s1 with data := delKey s1.data k }
  | none => throw .keyError

/-- Source `JsonFileKvStore.list`: load, then return the keys of the cache. -/
def JsonFileKvStore.listKeys {α : Type} (s : JsonFileKvStore α) :
    Except PyError (List String × JsonFileKvStore α) := do
  let s1 ← s.load
  pure (s1.data.map Prod.fst, s1)

/-- The standalone `Tunnel` helper class from `src/nyl/tunnel.py`. -/
structure Tunnel where
  forwarding : String
  host : String
  process : Option Nat
deriving DecidableEq

/-- Source `Tunnel.start`: raise `RuntimeError` when already started and still
running, otherwise spawn `ssh -NL <forwarding> <host>` with
`preexec_fn=os.setsid`, i.e. detached into its own process group. -/
def Tunnel.start (t : Tunnel) (running : Nat → Bool) (new_pid : Nat) :
    Except PyError (Tunnel × SpawnEvent) :=
  match t.process with
  | some pid =>
    if running pid then .error .runtimeError
    else .ok ({ t with process := some new_pid }, ⟨new_pid, true⟩)
  | none => .ok ({ t with process := some new_pid }, ⟨new_pid, true⟩)

/-! ## Characterization lemmas -/

/-- Lemma: `_refresh_status` never raises: its one OS call only ever fails with
`ProcessLookupError`, which is caught. -/
theorem refresh_status_eq (os : OsEnv) (st : TunnelStatus) :
    refresh_status os st = .ok
      (match st.ssh_pid with
       | none => st
       | some pid =>
         if os.live pid then { st with status := .opened }
         else { st with status := .broken, ssh_pid := none }) := by
  cases h : st.ssh_pid with
  | none => simp [refresh_status, h]
  | some pid =>
    by_cases hl : os.live pid <;>
      simp [refresh_status, h, os_kill_probe, hl]

/-- Lemma: `_close_tunnel` never raises; it yields a `closed` record with pid and
ports cleared, and signals exactly the recorded pid when it is still live. -/
theorem close_status_eq (os : OsEnv) (st : TunnelStatus) :
    close_status os st = .ok
      ({ st with status := .closed, ssh_pid := none, local_ports := [] },
       match st.ssh_pid with
       | none => []
       | some pid => if os.live pid then [pid] else []) := by
  cases h : st.ssh_pid with
  | none => simp [close_status, h, pure, Except.pure, bind, Except.bind]
  | some pid =>
    by_cases hl : os.live pid <;> by_cases hc : os.child pid <;>
      simp [close_status, h, os_kill_term, os_waitpid, catch_ple, catch_cpe, hl, hc,
        pure, Except.pure, bind, Except.bind]

/-- Lookup after update: the updated key maps to the new value, every other
key is unaffected. -/
theorem lookupKey_setKey {β : Type} (l : List (String × β)) (k k' : String) (v : β) :
    lookupKey (setKey l k v) k' = if k' = k then some v else lookupKey l k' := by
  induction l with
  | nil =>
    simp only [setKey, lookupKey]
    by_cases h : k = k'
    · subst h; simp
    · simp [h, Ne.symm h]
  | cons hd tl ih =>
    obtain ⟨k0, v0⟩ := hd
    simp only [setKey]
    by_cases h0 : k0 = k
    · subst h0
      simp only [lookupKey]
      by_cases h1 : k0 = k'
      · subst h1; simp
      · simp [h1, Ne.symm h1]
    · simp only [lookupKey, h0, if_neg h0]
      by_cases h1 : k0 = k'
      · subst h1
        simp [lookupKey, h0]
      · simp [lookupKey, h1, ih]

/-- Updating a key never removes other keys: a key present before an update is
still present afterwards. -/
theorem lookupKey_setKey_isSome {β : Type} (l : List (String × β)) (k k' : String)
    (v : β) (h : (lookupKey l k').isSome) : (lookupKey (setKey l k v) k').isSome := by
  rw [lookupKey_setKey]
  by_cases h1 : k' = k <;> simp [h1, h]

/-- Every key listed by the store can be looked up. -/
theorem lookupKey_isSome_of_mem {β : Type} (l : List (String × β)) (k : String)
    (h : k ∈ l.map Prod.fst) : (lookupKey l k).isSome := by
  induction l with
  | nil => simp at h
  | cons hd tl ih =>
    obtain ⟨k0, v0⟩ := hd
    by_cases h0 : k0 = k
    · simp [lookupKey, h0]
    · simp only [List.map, List.mem_cons] at h
      rcases h with h | h
    
      · exact absurd h.symm h0
      · simpa [lookupKey, h0] using ih h

/-- A pointwise `Bool` predicate holding on every stored value also holds on
every lookup result. -/
theorem lookupKey_all {β : Type} (p : β → Bool) (l : List (String × β)) (k : String)
    (v : β) (hall : l.all (fun kv => p kv.2) = true) (hl : lookupKey l k = some v) :
    p v = true := by
  induction l with
  | nil => simp [lookupKey] at hl
  | cons hd tl ih =>
    obtain ⟨k0, v0⟩ := hd
    simp only [List.all_cons, Bool.and_eq_true] at hall
    by_cases h0 : k0 = k
    · simp only [lookupKey, if_pos h0, Option.some.injEq] at hl
      exact hl ▸ hall.1
    · exact ih hall.2 (by simpa [lookupKey, h0] using hl)

/-- Updating with a value satisfying a pointwise predicate preserves that
predicate over the whole store. -/
theorem all_setKey {β : Type} (p : β → Bool) (l : List (String × β)) (k : String)
    (v : β) (hall : l.all (fun kv => p kv.2) = true) (hv : p v = true) :
    (setKey l k v).all (fun kv => p kv.2) = true := by
  induction l with
  | nil => simp [setKey, hv]
  | cons hd tl ih =>
    obtain ⟨k0, v0⟩ := hd
    simp only [List.all_cons, Bool.and_eq_true] at hall
    by_cases h0 : k0 = k
    · simp [setKey, h0, hv, hall.2]
    · simp [setKey, h0, hall.1, ih hall.2]

/-! ## Concrete fixtures used by witnesses and counterexamples -/

/-- A sample locator (`config_file="f"`, `profile="p"`; key string `"f:p"`). -/
def locA : Locator := ⟨"f", "p"⟩

/-- A sample forwarding. -/
def fwdA : Forwarding := ⟨"db", 5432⟩

/-- A sample spec with a single forwarding alias `"a"`. -/
def specA : TunnelSpec := ⟨locA, [("a", fwdA)], "u", "gw", none⟩

/-- A stored status: open, pid 42, one allocated port, hash `"h0"`. -/
def stOpenA : TunnelStatus :=
  { id := "tun1200", status := .opened, ssh_pid := some 42,
    local_ports := [("a", 15000)], spec_hash := "h0" }

/-- A store holding `specA`/`stOpenA` under the locator key. -/
def storeA : Store := [("f:p", (specA, stOpenA))]

/-- A hash oracle under which `specA` hashes to the recorded `"h0"`. -/
def hashA : TunnelSpec → String := fun _ => "h0"

/-- An OS in which every pid is live and waitable. -/
def osAllLive : OsEnv := ⟨fun _ => true, fun _ => true⟩

/-- An OS in which no pid is live (every probe/signal raises). -/
def osAllDead : OsEnv := ⟨fun _ => false, fun _ => false⟩

/-- A random oracle: id draw 1300, every port draw 11000, spawned pid 77. -/
def rndA : RandEnv := ⟨1300, fun _ => 11000, 77⟩

/-! ## C1 -/

/-- C1: if a record exists under `spec.locator`, its status is `open`, and its
recorded `spec_hash` equals the content hash of `spec`, then `open_tunnel spec`
returns that stored status unchanged (same id, ports and pid) and performs no
termination, no spawn, and no store write. -/
theorem c1_open_tunnel_idempotent
    (hash : TunnelSpec → String) (os : OsEnv) (rnd : RandEnv) (store : Store)
    (spec spec0 : TunnelSpec) (st : TunnelStatus)
    (h1 : lookupKey store spec.locator.str = some (spec0, st))
    (h2 : st.status = TunnelState.opened)
    (h3 : st.spec_hash = hash spec) :
    open_tunnel hash os rnd store spec = .ok (st, store, Effects.empty) := by
  simp [open_tunnel, h1, h2, h3, pure, Except.pure]

/-- C1 witness: the idempotent no-op branch on a concrete store. -/
theorem c1_witness :
    lookupKey storeA specA.locator.str = some (specA, stOpenA)
    ∧ stOpenA.status = TunnelState.opened
    ∧ stOpenA.spec_hash = hashA specA
    ∧ open_tunnel hashA osAllLive rndA storeA specA = .ok (stOpenA, storeA, Effects.empty) :=
  ⟨by decide, by decide, by decide,
    c1_open_tunnel_idempotent hashA osAllLive rndA storeA specA specA stOpenA
      (by decide) (by decide) (by decide)⟩

/-- Writing the same key twice keeps only the last value. -/
theorem setKey_setKey {β : Type} (l : List (String × β)) (k : String) (v1 v2 : β) :
    setKey (setKey l k v1) k v2 = setKey l k v2 := by
  induction l with
  | nil => simp [setKey]
  | cons hd tl ih =>
    obtain ⟨k0, v0⟩ := hd
    by_cases h0 : k0 = k
    · simp [setKey, h0]
    · simp [setKey, h0, ih]

/-- Closed form of the spawn tail of `open_tunnel`. -/
theorem open_tunnel_spawn_eq (rnd : RandEnv) (store : Store) (spec : TunnelSpec)
    (spec_hash : String) (term : List Nat) :
    open_tunnel_spawn rnd store spec spec_hash term =
      ({ id := new_tunnel_id rnd.id_draw, status := .opened,
         ssh_pid := some rnd.spawn_pid,
         local_ports := spec.forwardings.map (fun af => (af.1, rnd.port_draw af.1)),
         spec_hash := spec_hash },
       setKey store spec.locator.str
         (spec,
          { id := new_tunnel_id rnd.id_draw, status := .opened,
            ssh_pid := some rnd.spawn_pid,
            local_ports := spec.forwardings.map (fun af => (af.1, rnd.port_draw af.1)),
            spec_hash := spec_hash }),
       ⟨term, [⟨rnd.spawn_pid, false⟩], [spec.locator.str, spec.locator.str]⟩) := by
  simp [open_tunnel_spawn, setKey_setKey]

/-- Lemma: `open_tunnel` on an existing record that fails the idempotency check:
close the old tunnel, then run the spawn tail. -/
theorem open_tunnel_replace
    (hash : TunnelSpec → String) (os : OsEnv) (rnd : RandEnv) (store : Store)
    (spec spec0 : TunnelSpec) (st : TunnelStatus)
    (h1 : lookupKey store spec.locator.str = some (spec0, st))
    (hcond : ¬(st.status = TunnelState.opened ∧ st.spec_hash = hash spec)) :
    open_tunnel hash os rnd store spec =
      .ok (open_tunnel_spawn rnd store spec (hash spec)
        (match st.ssh_pid with
         | none => []
         | some pid => if os.live pid then [pid] else [])) := by
  simp [open_tunnel, h1, hcond, close_status_eq, bind, Except.bind, pure, Except.pure]

/-- Lemma: `open_tunnel` on an absent record: just run the spawn tail. -/
theorem open_tunnel_fresh
    (hash : TunnelSpec → String) (os : OsEnv) (rnd : RandEnv) (store : Store)
    (spec : TunnelSpec) (h1 : lookupKey store spec.locator.str = none) :
    open_tunnel hash os rnd store spec =
      .ok (open_tunnel_spawn rnd store spec (hash spec) []) := by
  simp [open_tunnel, h1, pure, Except.pure]

/-! ## C2 -/

/-- A stored status for the drift scenario: open, pid 42, old hash `"hOld"`,
and id `"tun1300"` (which the fresh draw of `rndA` can collide with). -/
def stOpenB : TunnelStatus :=
  { id := "tun1300", status := .opened, ssh_pid := some 42,
    local_ports := [("a", 15000)], spec_hash := "hOld" }

/-- Store holding `specA`/`stOpenB`. -/
def storeB : Store := [("f:p", (specA, stOpenB))]

/-- A hash oracle under which `specA` hashes to `"gw"` ≠ `"hOld"`. -/
def hashB : TunnelSpec → String := fun s => s.host

/-- The status `open_tunnel` produces in the drift scenario. -/
def stNewB : TunnelStatus :=
  { id := "tun1300", status := .opened, ssh_pid := some 77,
    local_ports := [("a", 11000)], spec_hash := "gw" }

/-- C2 counterexample: with the previous record's id `"tun1300"` and the fresh
(in-range) id draw 1300, `open_tunnel` on a changed spec returns a status whose
id EQUALS the previous record's id — `new_tunnel_id` never checks the old id,
so "a status whose id differs from the previous record's id" is not guaranteed. -/
theorem c2_counterexample :
    hashB specA ≠ stOpenB.spec_hash
    ∧ lookupKey storeB specA.locator.str = some (specA, stOpenB)
    ∧ 1000 ≤ rndA.id_draw ∧ rndA.id_draw ≤ 9999
    ∧ open_tunnel hashB osAllLive rndA storeB specA =
        .ok (stNewB, [("f:p", (specA, stNewB))],
             ⟨[42], [⟨77, false⟩], ["f:p", "f:p"]⟩)
    ∧ stNewB.id = stOpenB.id :=
  ⟨by decide, by decide, by decide, by decide, by rfl, by decide⟩

/-- C2 (amended): if the spec's hash differs from the recorded hash,
`open_tunnel` terminates the previously recorded process (when it is live),
spawns exactly one new SSH process, and returns a persisted status carrying
the freshly drawn id and the new hash (the fresh id is drawn independently,
so it differs from the previous id only when the draw happens to differ). -/
theorem c2_open_tunnel_replaces
    (hash : TunnelSpec → String) (os : OsEnv) (rnd : RandEnv) (store : Store)
    (spec spec0 : TunnelSpec) (st : TunnelStatus)
    (h1 : lookupKey store spec.locator.str = some (spec0, st))
    (h2 : hash spec ≠ st.spec_hash) :
    ∃ st' store' eff,
      open_tunnel hash os rnd store spec = .ok (st', store', eff)
      ∧ st'.id = new_tunnel_id rnd.id_draw
      ∧ st'.spec_hash = hash spec
      ∧ st'.status = TunnelState.opened
      ∧ st'.ssh_pid = some rnd.spawn_pid
      ∧ eff.spawned = [⟨rnd.spawn_pid, false⟩]
      ∧ eff.terminated = (match st.ssh_pid with
          | none => []
          | some pid => if os.live pid then [pid] else [])
      ∧ lookupKey store' spec.locator.str = some (spec, st') := by
  have hcond : ¬(st.status = TunnelState.opened ∧ st.spec_hash = hash spec) := by
    rintro ⟨-, hh⟩
    exact h2 hh.symm
  have hrun := open_tunnel_replace hash os rnd store spec spec0 st h1 hcond
  rw [open_tunnel_spawn_eq] at hrun
  exact ⟨_, _, _, hrun, rfl, rfl, rfl, rfl, rfl, rfl, by simp [lookupKey_setKey]⟩

/-- C2 witness: the amended theorem run on the concrete drift scenario. -/
theorem c2_witness :
    hashB specA ≠ stOpenB.spec_hash
    ∧ (∃ st' store' eff,
        open_tunnel hashB osAllLive rndA storeB specA = .ok (st', store', eff)
        ∧ st'.id = new_tunnel_id rndA.id_draw
        ∧ st'.spec_hash = hashB specA
        ∧ st'.status = TunnelState.opened
        ∧ st'.ssh_pid = some rndA.spawn_pid
        ∧ eff.spawned = [⟨rndA.spawn_pid, false⟩]
        ∧ eff.terminated = (match stOpenB.ssh_pid with
            | none => []
            | some pid => if osAllLive.live pid then [pid] else [])
        ∧ lookupKey store' specA.locator.str = some (specA, st')) :=
  ⟨by decide,
    c2_open_tunnel_replaces hashB osAllLive rndA storeB specA specA stOpenB
      (by decide) (by decide)⟩

/-! ## C3 -/

/-- C3: for a stored record with status `open` whose recorded pid is no longer
live, a refresh marks it `broken` and clears the pid; `get_tunnel` persists
that transition; and a subsequent `open_tunnel` with the same spec does not
take the idempotent no-op branch: it spawns a new SSH process and returns a
freshly drawn id. -/
theorem c3_broken_refresh_then_respawn
    (hash : TunnelSpec → String) (os : OsEnv) (rnd : RandEnv) (store : Store)
    (spec spec0 : TunnelSpec) (st : TunnelStatus) (p : Nat)
    (h1 : lookupKey store spec.locator.str = some (spec0, st))
    (h2 : st.status = TunnelState.opened)
    (h3 : st.ssh_pid = some p)
    (h4 : os.live p = false) :
    refresh_status os st = .ok { st with status := .broken, ssh_pid := none }
    ∧ get_tunnel os store spec.locator =
        .ok (some (spec0, { st with status := .broken, ssh_pid := none }),
             setKey store spec.locator.str
               (spec0, { st with status := .broken, ssh_pid := none }),
             ⟨[], [], [spec.locator.str]⟩)
    ∧ ∃ st2 store2 eff2,
        open_tunnel hash os rnd
            (setKey store spec.locator.str
              (spec0, { st with status := .broken, ssh_pid := none })) spec
          = .ok (st2, store2, eff2)
        ∧ st2.id = new_tunnel_id rnd.id_draw
        ∧ st2.status = TunnelState.opened
        ∧ st2.ssh_pid = some rnd.spawn_pid
        ∧ eff2.spawned = [⟨rnd.spawn_pid, false⟩] := by
  have hrefresh : refresh_status os st = .ok { st with status := .broken, ssh_pid := none } := by
    rw [refresh_status_eq]
    simp [h3, h4]
  refine ⟨hrefresh, ?_, ?_⟩
  · simp [get_tunnel, h1, hrefresh, bind, Except.bind, pure, Except.pure]
  · have h1' : lookupKey
        (setKey store spec.locator.str
          (spec0, { st with status := .broken, ssh_pid := none }))
        spec.locator.str = some (spec0, { st with status := .broken, ssh_pid := none }) := by
      simp [lookupKey_setKey]
    have hcond : ¬(({ st with status := .broken, ssh_pid := none } : TunnelStatus).status
        = TunnelState.opened
        ∧ ({ st with status := .broken, ssh_pid := none } : TunnelStatus).spec_hash
        = hash spec) := by
      rintro ⟨hh, -⟩
      exact absurd hh (by simp)
    have hrun := open_tunnel_replace hash os rnd _ spec spec0 _ h1' hcond
    rw [open_tunnel_spawn_eq] at hrun
    exact ⟨_, _, _, by simpa using hrun, rfl, rfl, rfl, rfl⟩

/-- C3 witness: the concrete open record with a dead pid is reclassified as
`broken` and then replaced, even though the spec hash is unchanged. -/
theorem c3_witness :
    lookupKey storeA specA.locator.str = some (specA, stOpenA)
    ∧ stOpenA.status = TunnelState.opened
    ∧ stOpenA.ssh_pid = some 42
    ∧ osAllDead.live 42 = false
    ∧ (refresh_status osAllDead stOpenA
        = .ok { stOpenA with status := .broken, ssh_pid := none }
      ∧ get_tunnel osAllDead storeA specA.locator =
          .ok (some (specA, { stOpenA with status := .broken, ssh_pid := none }),
               setKey storeA specA.locator.str
                 (specA, { stOpenA with status := .broken, ssh_pid := none }),
               ⟨[], [], [specA.locator.str]⟩)
      ∧ ∃ st2 store2 eff2,
          open_tunnel hashA osAllDead rndA
              (setKey storeA specA.locator.str
                (specA, { stOpenA with status := .broken, ssh_pid := none })) specA
            = .ok (st2, store2, eff2)
          ∧ st2.id = new_tunnel_id rndA.id_draw
          ∧ st2.status = TunnelState.opened
          ∧ st2.ssh_pid = some rndA.spawn_pid
          ∧ eff2.spawned = [⟨rndA.spawn_pid, false⟩]) :=
  ⟨by decide, by decide, by decide, by decide,
    c3_broken_refresh_then_respawn hashA osAllDead rndA storeA specA specA stOpenA 42
      (by decide) (by decide) (by decide) (by decide)⟩

/-! ## C4 -/

/-- Closed form of `close_tunnel` when a record exists for the locator. -/
theorem close_tunnel_found (os : OsEnv) (store : Store) (loc : Locator)
    (spec0 : TunnelSpec) (st0 : TunnelStatus)
    (hk : lookupKey store loc.str = some (spec0, st0)) :
    close_tunnel os store loc = .ok
      ({ st0 with status := .closed, ssh_pid := none, local_ports := [] },
       setKey store loc.str
         (spec0, { st0 with status := .closed, ssh_pid := none, local_ports := [] }),
       ⟨(match st0.ssh_pid with
         | none => []
         | some pid => if os.live pid then [pid] else []), [], [loc.str]⟩) := by
  cases hp : st0.ssh_pid with
  | none =>
    simp [close_tunnel, hk, refresh_status_eq, close_status_eq, hp,
      bind, Except.bind, pure, Except.pure]
  | some pid =>
    by_cases hl : os.live pid <;>
      simp [close_tunnel, hk, refresh_status_eq, close_status_eq, hp, hl,
        bind, Except.bind, pure, Except.pure]

/-- C4: `close_tunnel` never raises and always returns a status whose status
field is `closed` with pid and local ports cleared; when no record exists it
returns the synthetic empty `closed` status and leaves the store untouched;
when a record exists, the closed record is persisted under the locator. -/
theorem c4_close_tunnel_always_closed (os : OsEnv) (store : Store) (loc : Locator) :
    ∃ st store' eff,
      close_tunnel os store loc = .ok (st, store', eff)
      ∧ st.status = TunnelState.closed
      ∧ st.ssh_pid = none
      ∧ st.local_ports = []
      ∧ (lookupKey store loc.str = none →
          st = TunnelStatus.empty ∧ store' = store ∧ eff = Effects.empty)
      ∧ (∀ spec0 st0, lookupKey store loc.str = some (spec0, st0) →
          lookupKey store' loc.str = some (spec0, st)) := by
  cases hk : lookupKey store loc.str with
  | none =>
    refine ⟨TunnelStatus.empty, store, Effects.empty,
      by simp [close_tunnel, hk, pure, Except.pure], rfl, rfl, rfl,
      fun _ => ⟨rfl, rfl, rfl⟩, ?_⟩
    intro spec0 st0 h
    exact Option.noConfusion h
  | some v =>
    obtain ⟨spec0, st0⟩ := v
    refine ⟨_, _, _, close_tunnel_found os store loc spec0 st0 hk, rfl, rfl, rfl, ?_, ?_⟩
    · intro h
      exact Option.noConfusion h
    · intro spec1 st1 h
      injection h with h2
      injection h2 with ha hb
      subst ha
      simp [lookupKey_setKey]

/-- C4 witness: `close_tunnel` on a concrete store, both for a locator with a
record and for one without. -/
theorem c4_witness :
    ∃ st store' eff,
      close_tunnel osAllLive storeA locA = .ok (st, store', eff)
      ∧ st.status = TunnelState.closed
      ∧ st.ssh_pid = none
      ∧ st.local_ports = []
      ∧ (lookupKey storeA locA.str = none →
          st = TunnelStatus.empty ∧ store' = storeA ∧ eff = Effects.empty)
      ∧ (∀ spec0 st0, lookupKey storeA locA.str = some (spec0, st0) →
          lookupKey store' locA.str = some (spec0, st)) :=
  c4_close_tunnel_always_closed osAllLive storeA locA

/-! ## C5 -/

/-- C5 counterexample: after `get_tunnel` refreshes an open record whose pid is
dead, the persisted record's status is `broken` — not `open` — yet its
local_ports mapping is NOT empty: `_refresh_status` clears only the pid and
keeps the ports. -/
theorem c5_counterexample :
    get_tunnel osAllDead storeA locA =
      .ok (some (specA, { stOpenA with status := .broken, ssh_pid := none }),
           [("f:p", (specA, { stOpenA with status := .broken, ssh_pid := none }))],
           ⟨[], [], ["f:p"]⟩)
    ∧ ({ stOpenA with status := .broken, ssh_pid := none } : TunnelStatus).status
        ≠ TunnelState.opened
    ∧ ({ stOpenA with status := .broken, ssh_pid := none } : TunnelStatus).local_ports
        = [("a", 15000)] :=
  ⟨by rfl, by decide, by decide⟩

/-- The amended per-record invariant: a `closed` record has no local ports
(`broken` records may keep theirs until the next open/close). -/
def closed_no_ports (st : TunnelStatus) : Bool :=
  if st.status = TunnelState.closed then st.local_ports.isEmpty else true

/-- The amended store invariant: every stored `closed` record has no ports. -/
def store_closed_inv (s : Store) : Bool :=
  s.all (fun kv => closed_no_ports kv.2.2)

/-- A refresh never produces a `closed` record with ports. -/
theorem closed_no_ports_refresh (os : OsEnv) (st st' : TunnelStatus)
    (h : closed_no_ports st = true) (hr : refresh_status os st = .ok st') :
    closed_no_ports st' = true := by
  rw [refresh_status_eq] at hr
  injection hr with hr
  subst hr
  cases hp : st.ssh_pid with
  | none => simpa using h
  | some pid =>
    by_cases hl : os.live pid <;> simp [hl, closed_no_ports]

/-- The store invariant specialised to lookups: a looked-up record satisfies
the per-record invariant. -/
theorem store_inv_lookup (s : Store) (k : String) (sp : TunnelSpec) (st : TunnelStatus)
    (hinv : store_closed_inv s = true) (hl : lookupKey s k = some (sp, st)) :
    closed_no_ports st = true := by
  induction s with
  | nil => simp [lookupKey] at hl
  | cons hd tl ih =>
    obtain ⟨k0, v0⟩ := hd
    simp only [store_closed_inv, List.all_cons, Bool.and_eq_true] at hinv
    by_cases h0 : k0 = k
    · simp only [lookupKey, if_pos h0, Option.some.injEq] at hl
      have h2 : v0.2 = st := congrArg Prod.snd hl
      rw [← h2]
      exact hinv.1
    · exact ih hinv.2 (by simpa [lookupKey, h0] using hl)

/-- The store invariant is preserved by writing a record that satisfies the
per-record invariant. -/
theorem store_inv_set (s : Store) (k : String) (sp : TunnelSpec) (st : TunnelStatus)
    (hinv : store_closed_inv s = true) (hst : closed_no_ports st = true) :
    store_closed_inv (setKey s k (sp, st)) = true := by
  induction s with
  | nil => simp [store_closed_inv, setKey, hst]
  | cons hd tl ih =>
    obtain ⟨k0, v0⟩ := hd
    simp only [store_closed_inv, List.all_cons, Bool.and_eq_true] at hinv
    by_cases h0 : k0 = k
    · simp [store_closed_inv, setKey, h0, hst, hinv.2]
    · have hih := ih hinv.2
      simp only [store_closed_inv] at hih
      simp [store_closed_inv, setKey, h0, hinv.1, hih]

/-- The listing loop preserves the amended store invariant. -/
theorem get_tunnels_go_inv (os : OsEnv) (keys : List String) :
    ∀ (store : Store), store_closed_inv store = true →
      ∀ pairs store', get_tunnels_go os keys store = .ok (pairs, store') →
        store_closed_inv store' = true := by
  induction keys with
  | nil =>
    intro store hinv pairs store' h
    simp only [get_tunnels_go, pure, Except.pure, Except.ok.injEq] at h
    injection h with h1 h2
    rw [← h2]
    exact hinv
  | cons k rest ih =>
    intro store hinv pairs store' h
    cases hk : lookupKey store k with
    | none => simp [get_tunnels_go, hk, throw, throwThe, MonadExceptOf.throw] at h
    | some v =>
      obtain ⟨spec, st⟩ := v
      simp only [get_tunnels_go, hk, refresh_status_eq, bind, Except.bind] at h
      have hst : closed_no_ports st = true := store_inv_lookup store k spec st hinv hk
      have hst1 : closed_no_ports
          (match st.ssh_pid with
           | none => st
           | some pid =>
             if os.live pid then { st with status := .opened }
             else { st with status := .broken, ssh_pid := none }) = true :=
        closed_no_ports_refresh os st _ hst (refresh_status_eq os st)
      have hinv1 : store_closed_inv
          (setKey store k (spec,
            match st.ssh_pid with
            | none => st
            | some pid =>
              if os.live pid then { st with status := .opened }
              else { st with status := .broken, ssh_pid := none })) = true :=
        store_inv_set store k spec _ hinv hst1
      cases hrec : get_tunnels_go os rest
          (setKey store k (spec,
            match st.ssh_pid with
            | none => st
            | some pid =>
              if os.live pid then { st with status := .opened }
              else { st with status := .broken, ssh_pid := none })) with
      | error e => rw [hrec] at h; simp at h
      | ok r =>
        obtain ⟨pairs2, store2⟩ := r
        rw [hrec] at h
        simp only [pure, Except.pure, Except.ok.injEq] at h
        injection h with h1 h2
        rw [← h2]
        exact ih _ hinv1 pairs2 store2 hrec

/-- C5 (amended): after any manager operation, every stored record whose
status is `closed` has an empty local_ports mapping. (The original claim —
ports empty whenever status ≠ `open` — fails for `broken` records: a refresh
keeps their ports until the next open/close.) -/
theorem c5_store_invariant
    (hash : TunnelSpec → String) (os : OsEnv) (rnd : RandEnv) (store : Store)
    (spec : TunnelSpec) (loc : Locator)
    (hinv : store_closed_inv store = true) :
    (∀ st store' eff, open_tunnel hash os rnd store spec = .ok (st, store', eff) →
        store_closed_inv store' = true)
    ∧ (∀ st store' eff, close_tunnel os store loc = .ok (st, store', eff) →
        store_closed_inv store' = true)
    ∧ (∀ r store' eff, get_tunnel os store loc = .ok (r, store', eff) →
        store_closed_inv store' = true)
    ∧ (∀ pairs store', get_tunnels os store = .ok (pairs, store') →
        store_closed_inv store' = true) := by
  refine ⟨?_, ?_, ?_, ?_⟩
  · intro st store' eff h
    cases hk : lookupKey store spec.locator.str with
    | none =>
      rw [open_tunnel_fresh hash os rnd store spec hk, open_tunnel_spawn_eq] at h
      injection h with h1
      injection h1 with ha hbc
      injection hbc with hb hc
      subst hb
      exact store_inv_set store spec.locator.str spec _ hinv rfl
    | some v =>
      obtain ⟨spec0, st0⟩ := v
      by_cases hcond : st0.status = TunnelState.opened ∧ st0.spec_hash = hash spec
      · have heq : open_tunnel hash os rnd store spec = .ok (st0, store, Effects.empty) := by
          simp [open_tunnel, hk, hcond.1, hcond.2, pure, Except.pure]
        rw [heq] at h
        injection h with h1
        injection h1 with ha hbc
        injection hbc with hb hc
        subst hb
        exact hinv
      · rw [open_tunnel_replace hash os rnd store spec spec0 st0 hk hcond,
          open_tunnel_spawn_eq] at h
        injection h with h1
        injection h1 with ha hbc
        injection hbc with hb hc
        subst hb
        exact store_inv_set store spec.locator.str spec _ hinv rfl
  · intro st store' eff h
    cases hk : lookupKey store loc.str with
    | none =>
      have heq : close_tunnel os store loc = .ok (TunnelStatus.empty, store, Effects.empty) := by
        simp [close_tunnel, hk, pure, Except.pure]
      rw [heq] at h
      injection h with h1
      injection h1 with ha hbc
      injection hbc with hb hc
      subst hb
      exact hinv
    | some v =>
      obtain ⟨spec0, st0⟩ := v
      rw [close_tunnel_found os store loc spec0 st0 hk] at h
      injection h with h1
      injection h1 with ha hbc
      injection hbc with hb hc
      subst hb
      exact store_inv_set store loc.str spec0 _ hinv rfl
  · intro r store' eff h
    cases hk : lookupKey store loc.str with
    | none =>
      have heq : get_tunnel os store loc = .ok (none, store, Effects.empty) := by
        simp [get_tunnel, hk, pure, Except.pure]
      rw [heq] at h
      injection h with h1
      injection h1 with ha hbc
      injection hbc with hb hc
      subst hb
      exact hinv
    | some v =>
      obtain ⟨spec0, st0⟩ := v
      have heq : get_tunnel os store loc = .ok
          (some (spec0,
            (match st0.ssh_pid with
             | none => st0
             | some pid =>
               if os.live pid then { st0 with status := .opened }
               else { st0 with status := .broken, ssh_pid := none })),
           setKey store loc.str (spec0,
            (match st0.ssh_pid with
             | none => st0
             | some pid =>
               if os.live pid then { st0 with status := .opened }
               else { st0 with status := .broken, ssh_pid := none })),
           ⟨[], [], [loc.str]⟩) := by
        simp [get_tunnel, hk, refresh_status_eq, bind, Except.bind, pure, Except.pure]
      rw [heq] at h
      injection h with h1
      injection h1 with ha hbc
      injection hbc with hb hc
      subst hb
      exact store_inv_set store loc.str spec0 _ hinv
        (closed_no_ports_refresh os st0 _
          (store_inv_lookup store loc.str spec0 st0 hinv hk) (refresh_status_eq os st0))
  · intro pairs store' h
    simp only [get_tunnels] at h
    exact get_tunnels_go_inv os (store.map Prod.fst) store hinv pairs store' h

/-- C5 witness: the amended invariant run on a concrete store satisfying it. -/
theorem c5_witness :
    store_closed_inv storeA = true
    ∧ ((∀ st store' eff, open_tunnel hashA osAllLive rndA storeA specA = .ok (st, store', eff) →
          store_closed_inv store' = true)
      ∧ (∀ st store' eff, close_tunnel osAllLive storeA locA = .ok (st, store', eff) →
          store_closed_inv store' = true)
      ∧ (∀ r store' eff, get_tunnel osAllLive storeA locA = .ok (r, store', eff) →
          store_closed_inv store' = true)
      ∧ (∀ pairs store', get_tunnels osAllLive storeA = .ok (pairs, store') →
          store_closed_inv store' = true)) :=
  ⟨by decide, c5_store_invariant hashA osAllLive rndA storeA specA locA (by decide)⟩

/-! ## C6 -/

/-- C6: durability of the file-backed store. Setting a key inside a locked
session, exiting the session (which saves and discards the cache: `loaded`
and `data` are reset), then opening a new session on the same file and
reading the key returns the stored value, re-read from disk. -/
theorem c6_durability {α : Type} (disk0 : Option (List (String × α))) (k : String) (v : α) :
    ∃ s1 s2 : JsonFileKvStore α,
      (do
        let s ← JsonFileKvStore.set
          (JsonFileKvStore.enter ⟨disk0, [], false, false, true⟩) k v
        s.exitCtx) = .ok s1
      ∧ s1.loaded = false ∧ s1.data = [] ∧ s1.locked = false
      ∧ s1.enter.get k = .ok (v, s2) := by
  cases disk0 with
  | none =>
    refine ⟨⟨some (setKey [] k v), [], false, false, true⟩,
            ⟨some (setKey [] k v), setKey [] k v, true, true, true⟩,
            ?_, rfl, rfl, rfl, ?_⟩
    · simp [JsonFileKvStore.enter, JsonFileKvStore.set, JsonFileKvStore.load,
        JsonFileKvStore.save, JsonFileKvStore.exitCtx, bind, Except.bind, pure, Except.pure]
    · simp [JsonFileKvStore.enter, JsonFileKvStore.get, JsonFileKvStore.load,
        bind, Except.bind, pure, Except.pure, lookupKey_setKey]
  | some d =>
    refine ⟨⟨some (setKey d k v), [], false, false, true⟩,
            ⟨some (setKey d k v), setKey d k v, true, true, true⟩,
            ?_, rfl, rfl, rfl, ?_⟩
    · simp [JsonFileKvStore.enter, JsonFileKvStore.set, JsonFileKvStore.load,
        JsonFileKvStore.save, JsonFileKvStore.exitCtx, bind, Except.bind, pure, Except.pure]
    · simp [JsonFileKvStore.enter, JsonFileKvStore.get, JsonFileKvStore.load,
        bind, Except.bind, pure, Except.pure, lookupKey_setKey]

/-! ## C9 -/

/-- C9: when a lockfile is configured, every store operation (get, set,
delete, list) and the save run on session exit fails with `RuntimeError` while
the lock is not held (and the cache is cold, as it always is outside a
session); and exiting a session always leaves the lock released with the
cache discarded, so no later operation can silently use stale data. -/
theorem c9_lock_required {α : Type} (s : JsonFileKvStore α) (k : String) (v : α)
    (h1 : s.lockfile = true) (h2 : s.locked = false) (h3 : s.loaded = false) :
    s.get k = .error .runtimeError
    ∧ s.set k v = .error .runtimeError
    ∧ s.delete k = .error .runtimeError
    ∧ s.listKeys = .error .runtimeError
    ∧ s.save = .error .runtimeError
    ∧ s.exitCtx = .error .runtimeError
    ∧ (∀ t t' : JsonFileKvStore α, t.lockfile = true → t.exitCtx = .ok t' →
        t'.locked = false ∧ t'.loaded = false ∧ t'.data = []) := by
  have hload : s.load = .error .runtimeError := by
    simp [JsonFileKvStore.load, h1, h2, h3]
  refine ⟨?_, ?_, ?_, ?_, ?_, ?_, ?_⟩
  · simp [JsonFileKvStore.get, hload, bind, Except.bind]
  · simp [JsonFileKvStore.set, hload, bind, Except.bind]
  · simp [JsonFileKvStore.delete, hload, bind, Except.bind]
  · simp [JsonFileKvStore.listKeys, hload, bind, Except.bind]
  · simp [JsonFileKvStore.save, h1, h2]
  · simp [JsonFileKvStore.exitCtx, JsonFileKvStore.save, h1, h2, bind, Except.bind]
  · intro t t' hl he
    cases hl2 : t.locked with
    | false =>
      simp [JsonFileKvStore.exitCtx, JsonFileKvStore.save, hl, hl2, bind, Except.bind] at he
    | true =>
      simp only [JsonFileKvStore.exitCtx, JsonFileKvStore.save, hl, hl2, Bool.not_true,
        Bool.and_false, Bool.false_eq_true, if_false, bind, Except.bind] at he
      injection he with he1
      rw [← he1]
      exact ⟨rfl, rfl, rfl⟩

/-- C9 witness: a concrete store with a configured lockfile, outside any
session. -/
theorem c9_witness :
    ((⟨none, [], false, false, true⟩ : JsonFileKvStore Nat).lockfile = true
      ∧ (⟨none, [], false, false, true⟩ : JsonFileKvStore Nat).locked = false
      ∧ (⟨none, [], false, false, true⟩ : JsonFileKvStore Nat).loaded = false)
    ∧ ((⟨none, [], false, false, true⟩ : JsonFileKvStore Nat).get "k" = .error .runtimeError
      ∧ (⟨none, [], false, false, true⟩ : JsonFileKvStore Nat).set "k" 0 = .error .runtimeError
      ∧ (⟨none, [], false, false, true⟩ : JsonFileKvStore Nat).delete "k" = .error .runtimeError
      ∧ (⟨none, [], false, false, true⟩ : JsonFileKvStore Nat).listKeys = .error .runtimeError
      ∧ (⟨none, [], false, false, true⟩ : JsonFileKvStore Nat).save = .error .runtimeError
      ∧ (⟨none, [], false, false, true⟩ : JsonFileKvStore Nat).exitCtx = .error .runtimeError
      ∧ (∀ t t' : JsonFileKvStore Nat, t.lockfile = true → t.exitCtx = .ok t' →
          t'.locked = false ∧ t'.loaded = false ∧ t'.data = [])) :=
  ⟨⟨rfl, rfl, rfl⟩,
    c9_lock_required (⟨none, [], false, false, true⟩ : JsonFileKvStore Nat) "k" 0 rfl rfl rfl⟩

/-! ## C7 -/

/-- The listing loop never fails when every listed key is present. -/
theorem get_tunnels_go_total (os : OsEnv) (keys : List String) :
    ∀ store : Store, (∀ k ∈ keys, (lookupKey store k).isSome) →
      ∃ r, get_tunnels_go os keys store = .ok r := by
  induction keys with
  | nil => exact fun store _ => ⟨([], store), rfl⟩
  | cons k rest ih =>
    intro store h
    have hk : (lookupKey store k).isSome := h k (by simp)
    cases hkk : lookupKey store k with
    | none => rw [hkk] at hk; simp at hk
    | some v =>
      obtain ⟨spec, st⟩ := v
      have hrest : ∀ k' ∈ rest,
          (lookupKey (setKey store k
            (spec,
              match st.ssh_pid with
              | none => st
              | some pid =>
                if os.live pid then { st with status := TunnelState.opened }
                else { st with status := TunnelState.broken, ssh_pid := none })) k').isSome :=
        fun k' hk' =>
          lookupKey_setKey_isSome store k k' _ (h k' (List.mem_cons_of_mem _ hk'))
      obtain ⟨⟨pairs2, store2⟩, hr⟩ := ih _ hrest
      refine ⟨((spec,
          match st.ssh_pid with
          | none => st
          | some pid =>
            if os.live pid then { st with status := TunnelState.opened }
            else { st with status := TunnelState.broken, ssh_pid := none }) :: pairs2,
        store2), ?_⟩
      simp [get_tunnels_go, hkk, refresh_status_eq, bind, Except.bind, hr,
        pure, Except.pure]

/-- C7: a `ProcessLookupError` raised by the liveness probe or the termination
signal is always handled inside the manager — `get_tunnels`, `get_tunnel`,
`open_tunnel` and `close_tunnel` return a normal result for every OS
environment (in particular for one where every recorded pid is dead) and never
propagate an error to the caller. -/
theorem c7_no_error_escapes
    (hash : TunnelSpec → String) (os : OsEnv) (rnd : RandEnv) (store : Store)
    (spec : TunnelSpec) (loc : Locator) :
    (∃ r, open_tunnel hash os rnd store spec = .ok r)
    ∧ (∃ r, close_tunnel os store loc = .ok r)
    ∧ (∃ r, get_tunnel os store loc = .ok r)
    ∧ (∃ r, get_tunnels os store = .ok r) := by
  refine ⟨?_, ?_, ?_, ?_⟩
  · cases hk : lookupKey store spec.locator.str with
    | none => exact ⟨_, open_tunnel_fresh hash os rnd store spec hk⟩
    | some v =>
      obtain ⟨spec0, st0⟩ := v
      by_cases hcond : st0.status = TunnelState.opened ∧ st0.spec_hash = hash spec
      · exact ⟨(st0, store, Effects.empty),
          by simp [open_tunnel, hk, hcond.1, hcond.2, pure, Except.pure]⟩
      · exact ⟨_, open_tunnel_replace hash os rnd store spec spec0 st0 hk hcond⟩
  · cases hk : lookupKey store loc.str with
    | none => exact ⟨(TunnelStatus.empty, store, Effects.empty),
        by simp [close_tunnel, hk, pure, Except.pure]⟩
    | some v =>
      obtain ⟨spec0, st0⟩ := v
      exact ⟨_, close_tunnel_found os store loc spec0 st0 hk⟩
  · cases hk : lookupKey store loc.str with
    | none => exact ⟨(none, store, Effects.empty),
        by simp [get_tunnel, hk, pure, Except.pure]⟩
    | some v =>
      obtain ⟨spec0, st0⟩ := v
      exact ⟨(some (spec0,
          match st0.ssh_pid with
          | none => st0
          | some pid =>
            if os.live pid then { st0 with status := TunnelState.opened }
            else { st0 with status := TunnelState.broken, ssh_pid := none }),
        setKey store loc.str (spec0,
          match st0.ssh_pid with
          | none => st0
          | some pid =>
            if os.live pid then { st0 with status := TunnelState.opened }
            else { st0 with status := TunnelState.broken, ssh_pid := none }),
        ⟨[], [], [loc.str]⟩),
        by simp [get_tunnel, hk, refresh_status_eq, bind, Except.bind,
          pure, Except.pure]⟩
  · obtain ⟨r, hr⟩ := get_tunnels_go_total os (store.map Prod.fst) store
      (fun k hk => lookupKey_isSome_of_mem store k hk)
    exact ⟨r, by simpa [get_tunnels] using hr⟩

/-! ## C8 -/

/-- The status produced by a fresh `open_tunnel` on an empty store, under
`hashA`/`rndA`. -/
def stNewC8 : TunnelStatus :=
  { id := "tun1300", status := .opened, ssh_pid := some 77,
    local_ports := [("a", 11000)], spec_hash := "h0" }

/-- C8 counterexample: `TunnelManager.open_tunnel` spawns the SSH process
with a plain `subprocess.Popen` call — the spawn event is NOT detached into
its own process group, on this concrete run its `detached` flag is `false`. -/
theorem c8_counterexample :
    open_tunnel hashA osAllLive rndA [] specA =
      .ok (stNewC8, [("f:p", (specA, stNewC8))],
           ⟨[], [⟨77, false⟩], ["f:p", "f:p"]⟩)
    ∧ (⟨77, false⟩ : SpawnEvent).detached = false :=
  ⟨by rfl, rfl⟩

/-- C8 (amended): processes spawned by `TunnelManager.open_tunnel` are NOT
detached into their own process group (plain `Popen`); only the standalone
`Tunnel.start` helper detaches its SSH process via `preexec_fn=os.setsid`. -/
theorem c8_manager_spawn_not_detached
    (hash : TunnelSpec → String) (os : OsEnv) (rnd : RandEnv) (store : Store)
    (spec : TunnelSpec) (st : TunnelStatus) (store' : Store) (eff : Effects)
    (t t' : Tunnel) (running : Nat → Bool) (new_pid : Nat) (ev : SpawnEvent)
    (hopen : open_tunnel hash os rnd store spec = .ok (st, store', eff))
    (hstart : Tunnel.start t running new_pid = .ok (t', ev)) :
    (∀ e ∈ eff.spawned, e.detached = false) ∧ ev.detached = true := by
  constructor
  · intro e he
    cases hk : lookupKey store spec.locator.str with
    | none =>
      rw [open_tunnel_fresh hash os rnd store spec hk, open_tunnel_spawn_eq] at hopen
      injection hopen with h1
      injection h1 with ha hbc
      injection hbc with hb hc
      rw [← hc] at he
      simp at he
      subst he
      rfl
    | some v =>
      obtain ⟨spec0, st0⟩ := v
      by_cases hcond : st0.status = TunnelState.opened ∧ st0.spec_hash = hash spec
      · have heq : open_tunnel hash os rnd store spec = .ok (st0, store, Effects.empty) := by
          simp [open_tunnel, hk, hcond.1, hcond.2, pure, Except.pure]
        rw [heq] at hopen
        injection hopen with h1
        injection h1 with ha hbc
        injection hbc with hb hc
        rw [← hc] at he
        simp [Effects.empty] at he
      · rw [open_tunnel_replace hash os rnd store spec spec0 st0 hk hcond,
          open_tunnel_spawn_eq] at hopen
        injection hopen with h1
        injection h1 with ha hbc
        injection hbc with hb hc
        rw [← hc] at he
        simp at he
        subst he
        rfl
  · cases hp : t.process with
    | none =>
      rw [show Tunnel.start t running new_pid
          = .ok ({ t with process := some new_pid }, ⟨new_pid, true⟩) from by
        simp [Tunnel.start, hp]] at hstart
      injection hstart with h1
      injection h1 with ha hb
      rw [← hb]
    | some pid =>
      by_cases hr : running pid
      · rw [show Tunnel.start t running new_pid = .error .runtimeError from by
          simp [Tunnel.start, hp, hr]] at hstart
        exact Except.noConfusion hstart
      · rw [show Tunnel.start t running new_pid
            = .ok ({ t with process := some new_pid }, ⟨new_pid, true⟩) from by
          simp [Tunnel.start, hp, hr]] at hstart
        injection hstart with h1
        injection h1 with ha hb
        rw [← hb]

/-- C8 witness: the amended theorem on a concrete manager run and a concrete
`Tunnel.start` run. -/
theorem c8_witness :
    (open_tunnel hashA osAllLive rndA [] specA =
        .ok (stNewC8, [("f:p", (specA, stNewC8))],
             ⟨[], [⟨77, false⟩], ["f:p", "f:p"]⟩)
      ∧ Tunnel.start ⟨"6443:127.0.0.1:6443", "gw", none⟩ (fun _ => false) 88 =
        .ok (⟨"6443:127.0.0.1:6443", "gw", some 88⟩, ⟨88, true⟩))
    ∧ ((∀ e ∈ (⟨[], [⟨77, false⟩], ["f:p", "f:p"]⟩ : Effects).spawned,
          e.detached = false)
      ∧ (⟨88, true⟩ : SpawnEvent).detached = true) :=
  ⟨⟨by rfl, by rfl⟩,
    c8_manager_spawn_not_detached hashA osAllLive rndA [] specA stNewC8
      [("f:p", (specA, stNewC8))] ⟨[], [⟨77, false⟩], ["f:p", "f:p"]⟩
      ⟨"6443:127.0.0.1:6443", "gw", none⟩ ⟨"6443:127.0.0.1:6443", "gw", some 88⟩
      (fun _ => false) 88 ⟨88, true⟩ (by rfl) (by rfl)⟩

/-! ## C10 -/

/-- A spec with two distinct forwarding aliases behind the same target. -/
def specAB : TunnelSpec := ⟨locA, [("a", fwdA), ("b", fwdA)], "u", "gw", none⟩

/-- A random oracle whose port draws are all 10000 (a legal outcome of
`random.randint(10000, 20000)`), id draw 1000, spawned pid 7. -/
def rndC : RandEnv := ⟨1000, fun _ => 10000, 7⟩

/-- C10: `open_tunnel` assigns each forwarding alias its own independent draw
from 10000..20000 with no distinctness check, so an outcome in which two
distinct aliases of one spec receive the same local port is possible. -/
theorem c10_port_collision_possible :
    ∃ (hash : TunnelSpec → String) (os : OsEnv) (rnd : RandEnv) (spec : TunnelSpec)
      (st : TunnelStatus) (store' : Store) (eff : Effects) (p : Nat),
      (∀ a : String, 10000 ≤ rnd.port_draw a ∧ rnd.port_draw a ≤ 20000)
      ∧ spec.forwardings.map Prod.fst = ["a", "b"]
      ∧ open_tunnel hash os rnd [] spec = .ok (st, store', eff)
      ∧ st.local_ports = spec.forwardings.map (fun af => (af.1, rnd.port_draw af.1))
      ∧ lookupKey st.local_ports "a" = some p
      ∧ lookupKey st.local_ports "b" = some p
      ∧ (∀ rnd2 : RandEnv, ∃ st2 store2 eff2,
          open_tunnel hash os rnd2 [] spec = .ok (st2, store2, eff2)
          ∧ st2.local_ports = spec.forwardings.map (fun af => (af.1, rnd2.port_draw af.1))) := by
  refine ⟨hashA, osAllLive, rndC, specAB,
    { id := "tun1000", status := .opened, ssh_pid := some 7,
      local_ports := [("a", 10000), ("b", 10000)], spec_hash := "h0" },
    [("f:p", (specAB,
      { id := "tun1000", status := .opened, ssh_pid := some 7,
        local_ports := [("a", 10000), ("b", 10000)], spec_hash := "h0" }))],
    ⟨[], [⟨7, false⟩], ["f:p", "f:p"]⟩, 10000,
    fun a => ⟨le_refl _, by norm_num [rndC]⟩, by decide, by rfl, by decide,
    by decide, by decide, ?_⟩
  intro rnd2
  have hrun := open_tunnel_fresh hashA osAllLive rnd2 [] specAB rfl
  rw [open_tunnel_spawn_eq] at hrun
  exact ⟨_, _, _, hrun, rfl⟩
